import Mathlib

/-!
Shallow embedding of `mlagents/trainers/trainer.py` (Unity ML-Agents toolkit,
trainer base layer).

Modelling conventions:
* Wall-clock timestamps (Python `time()`) are passed explicitly as rational
  `now` arguments; durations are rationals.
* Python exceptions are values of `PyError`.  A method that can both mutate
  state and raise returns a pair `(state', Except PyError result)`, where the
  first component is the object state at the moment the method returns or the
  exception escapes (Python mutations performed before a raise persist).
* The `trainer_parameters` dictionary is an insertion-ordered association
  list, as is the `stats` mapping (Python 3.7+ dict order).
* Logging is modelled structurally: a `LogEvent` records the data that the
  source interpolates into the log string (mean/std formatting of the actual
  message is presentation only and carries the same data).
-/

/-- Python runtime errors raised by the embedded code. -/
inductive PyError where
  | typeError
  | keyError (key : String)
  | zeroDivisionError
  | unityTrainerException (msg : String)
  deriving DecidableEq

/-- Values held by the `trainer_parameters` configuration dictionary. -/
inductive PyVal where
  | int (n : Int)
  | str (s : String)
  deriving DecidableEq

/-- A CSV cell as accumulated in `TrainerMetrics.rows`: the row built in
`end_policy_update` holds the brain name (str), pre-formatted duration
strings, and the pass-through values (int buffer length, or `None`). -/
inductive Cell where
  | str (s : String)
  | int (n : Int)
  | pynone
  deriving DecidableEq

/-- Structural rendering of the source's logger calls: each event carries the
values the source interpolates into the message. -/
inductive LogEvent where
  | summaryReward (run_id : Nat) (brain : String) (step : Int) (delta : ℚ)
      (rewards : List ℚ) (training : Bool)
  | summaryNoEpisode (run_id : Nat) (brain : String) (step : Int) (training : Bool)
  | tbTextFailed
  deriving DecidableEq

/-- State of `TrainerMetrics` (`trainer.py` lines 22-45). -/
structure TrainerMetrics where
  path : String
  brain_name : String
  rows : List (List Cell)
  time_start_experience_collection : Option ℚ
  time_training_start : ℚ
  last_buffer_length : Option Int
  last_mean_return : Option ℚ
  time_policy_update_start : Option ℚ
  delta_last_experience_collection : Option ℚ
  delta_policy_update : Option ℚ
  deriving DecidableEq

/-- `TrainerMetrics.__init__` (lines 28-45); `now` is the `time()` value taken
for `time_training_start`. -/
def TrainerMetrics.init (path brain_name : String) (now : ℚ) : TrainerMetrics :=
  { path := path
    brain_name := brain_name
    rows := []
    time_start_experience_collection := none
    time_training_start := now
    last_buffer_length := none
    last_mean_return := none
    time_policy_update_start := none
    delta_last_experience_collection := none
    delta_policy_update := none }

/-- `FIELD_NAMES` (lines 35-37). -/
def FIELD_NAMES : List String :=
  ["Brain name", "Time to update policy", "Time since start of training",
   "Time for last experience collection", "Number of experiences used for training",
   "Mean return"]

/-- `start_experience_collection_timer` (lines 47-52): records `now` as the
collection start only when no collection is in progress. -/
def TrainerMetrics.start_experience_collection_timer
    (m : TrainerMetrics) (now : ℚ) : TrainerMetrics :=
  match m.time_start_experience_collection with
  | none => { m with time_start_experience_collection := some now }
  | some _ => m

/-- `end_experience_collection_timer` (lines 54-59).  `time() - None` raises
`TypeError` before any assignment when no start was recorded. -/
def TrainerMetrics.end_experience_collection_timer
    (m : TrainerMetrics) (now : ℚ) : TrainerMetrics × Except PyError Unit :=
  match m.time_start_experience_collection with
  | none => (m, .error .typeError)
  | some t0 =>
      ({ m with
          delta_last_experience_collection := some (now - t0)
          time_start_experience_collection := none }, .ok ())

/-- `start_policy_update_timer` (lines 61-69). -/
def TrainerMetrics.start_policy_update_timer
    (m : TrainerMetrics) (number_experiences : Int) (mean_return : ℚ)
    (now : ℚ) : TrainerMetrics :=
  { m with
      last_buffer_length := some number_experiences
      last_mean_return := some mean_return
      time_policy_update_start := some now }

/-- `end_policy_update` (lines 71-91).  Line 75 (`time() -
self.time_policy_update_start`) raises `TypeError` when no update was started;
otherwise `self.delta_policy_update` is assigned and then the call raises
`TypeError` in every case: the eagerly evaluated debug-log `.format` call
(lines 77-85) applies a `.3f` format to `delta_last_experience_collection` /
`last_mean_return` which raises on `None`, and when those are floats the row
generator (line 87) evaluates `isinstance(c)` with a single argument, which
raises `TypeError` unconditionally.  Hence `self.rows.append(row)` (line 91)
is unreachable. -/
def TrainerMetrics.end_policy_update
    (m : TrainerMetrics) (now : ℚ) : TrainerMetrics × Except PyError Unit :=
  match m.time_policy_update_start with
  | none => (m, .error .typeError)
  | some tpus =>
      ({ m with delta_policy_update := some (now - tpus) }, .error .typeError)

/-- True when `csv.writer` (QUOTE_MINIMAL dialect) must quote the field. -/
def csv_needs_quote (s : String) : Bool :=
  s.toList.any fun c => c = ',' || c = '"' || c = '\r' || c = '\n'

/-- Double every quote character, per the CSV quoting rule. -/
def csv_escape (s : String) : String :=
  String.join (s.toList.map fun c => if c = '"' then "\"\"" else String.singleton c)

/-- One CSV field, quoted when needed (csv.QUOTE_MINIMAL). -/
def csv_field (s : String) : String :=
  if csv_needs_quote s then "\"" ++ csv_escape s ++ "\"" else s

/-- How `csv.writer` stringifies a cell (`None` becomes the empty string). -/
def Cell.toCsvString : Cell → String
  | .str s => s
  | .int n => toString n
  | .pynone => ""

/-- `csv.writer.writerow`: comma-joined fields terminated by CRLF. -/
def csv_writerow (cells : List Cell) : String :=
  String.intercalate "," (cells.map fun c => csv_field c.toCsvString) ++ "\r\n"

/-- `write_training_metrics` (lines 93-101): writes the header row then every
accumulated row, truncating the file.  Returns the (unchanged) state and the
full file content. -/
def TrainerMetrics.write_training_metrics
    (m : TrainerMetrics) : TrainerMetrics × String :=
  (m, csv_writerow (FIELD_NAMES.map Cell.str) ++ String.join (m.rows.map csv_writerow))

/-- Mean as computed by `np.mean` on a nonempty sample list. -/
def np_mean (l : List ℚ) : ℚ := l.sum / l.length

/-- State of the abstract `Trainer` (`trainer.py` lines 104-129).  The fields
`get_step_impl` / `get_max_steps_impl` model the values returned by the
subclass overrides of the `get_step` / `get_max_steps` properties, which
`write_summary` and `save_model` consult on a concrete trainer. -/
structure Trainer where
  param_keys : List String
  brain_name : String
  run_id : Nat
  trainer_parameters : List (String × PyVal)
  cls : String
  is_training : Bool
  stats : List (String × List ℚ)
  trainer_metrics : TrainerMetrics
  get_step_impl : Int
  get_max_steps_impl : Int
  deriving DecidableEq

/-- The message raised by `check_param_keys` (lines 137-139). -/
def check_param_keys_msg (k cls brain : String) : String :=
  "The hyper-parameter " ++ k ++ " could not be found for the " ++ cls ++
    " trainer of brain " ++ brain ++ "."

/-- The `for k in self.param_keys` loop of `check_param_keys`: first declared
key missing from the configuration mapping, if any. -/
def find_missing_key (params : List (String × PyVal)) : List String → Option String
  | [] => none
  | k :: ks =>
      if (List.lookup k params).isSome then find_missing_key params ks else some k

/-- `check_param_keys` (lines 134-139): raises `UnityTrainerException` naming
the first missing required key, the trainer class and the brain; otherwise
returns with the trainer state untouched. -/
def Trainer.check_param_keys (t : Trainer) : Except PyError Trainer :=
  match find_missing_key t.trainer_parameters t.param_keys with
  | some k => .error (.unityTrainerException (check_param_keys_msg k t.cls t.brain_name))
  | none => .ok t

/-- Stub property `parameters` (lines 141-147). -/
def Trainer.parameters (_t : Trainer) : Except PyError PyVal :=
  .error (.unityTrainerException "The parameters property was not implemented.")

/-- Stub property `graph_scope` (lines 149-155). -/
def Trainer.graph_scope (_t : Trainer) : Except PyError PyVal :=
  .error (.unityTrainerException "The graph_scope property was not implemented.")

/-- Stub property `get_max_steps` (lines 157-164). -/
def Trainer.get_max_steps (_t : Trainer) : Except PyError PyVal :=
  .error (.unityTrainerException "The get_max_steps property was not implemented.")

/-- Stub property `get_step` (lines 166-173). -/
def Trainer.get_step (_t : Trainer) : Except PyError PyVal :=
  .error (.unityTrainerException "The get_step property was not implemented.")

/-- Stub property `get_last_reward` (lines 175-182). -/
def Trainer.get_last_reward (_t : Trainer) : Except PyError PyVal :=
  .error (.unityTrainerException "The get_last_reward property was not implemented.")

/-- Stub method `increment_step_and_update_last_reward` (lines 184-189). -/
def Trainer.increment_step_and_update_last_reward (_t : Trainer) : Except PyError PyVal :=
  .error (.unityTrainerException
    "The increment_step_and_update_last_reward method was not implemented.")

/-- Stub method `add_experiences` (lines 200-209); the `curr_info`,
`next_info` and `take_action_outputs` arguments are irrelevant to the raise. -/
def Trainer.add_experiences (_t : Trainer) : Except PyError PyVal :=
  .error (.unityTrainerException "The add_experiences method was not implemented.")

/-- Stub method `process_experiences` (lines 211-219). -/
def Trainer.process_experiences (_t : Trainer) : Except PyError PyVal :=
  .error (.unityTrainerException "The process_experiences method was not implemented.")

/-- Stub method `end_episode` (lines 221-227). -/
def Trainer.end_episode (_t : Trainer) : Except PyError PyVal :=
  .error (.unityTrainerException "The end_episode method was not implemented.")

/-- Stub method `is_ready_update` (lines 229-235). -/
def Trainer.is_ready_update (_t : Trainer) : Except PyError PyVal :=
  .error (.unityTrainerException "The is_ready_update method was not implemented.")

/-- Stub method `update_policy` (lines 237-242); note the source's message
names `update_model`. -/
def Trainer.update_policy (_t : Trainer) : Except PyError PyVal :=
  .error (.unityTrainerException "The update_model method was not implemented.")

/-- The `for key in self.stats` loop of `write_summary` (lines 290-295),
iterating in insertion order: returns the stats mapping after the loop
(non-empty sample lists reassigned to `[]`, empty ones untouched) and the
`(tag, mean)` pairs added to the summary, in iteration order. -/
def summarize_stats : List (String × List ℚ) → List (String × List ℚ) × List (String × ℚ)
  | [] => ([], [])
  | (k, v) :: rest =>
      let r := summarize_stats rest
      if v.length > 0 then ((k, []) :: r.1, (k, np_mean v) :: r.2)
      else ((k, v) :: r.1, r.2)

/-- `write_summary` (lines 263-298).  Evaluation order of the source:
`self.trainer_parameters['summary_freq']` is read first (`KeyError` when
absent, `TypeError` when `%` is applied to a non-int, `ZeroDivisionError`
when it is 0); when `global_step` is a nonzero multiple of the frequency the
`is_training` label is computed, `self.stats['Environment/Cumulative Reward']`
is read (`KeyError` when absent), one info line is logged, every statistic key
with samples has its mean added to the summary and its sample list cleared,
the lesson number is always added, and the summary is handed to the writer.
Returns the new trainer state, the `(tag, value)` pairs handed to the summary
writer, and the log events.  `Int.fmod` is Python's `%` on integers. -/
def Trainer.write_summary (t : Trainer) (global_step : Int) (delta_train_start : ℚ)
    (lesson_num : Int) : Except PyError (Trainer × List (String × ℚ) × List LogEvent) :=
  match List.lookup "summary_freq" t.trainer_parameters with
  | none => .error (.keyError "summary_freq")
  | some (.str _) => .error .typeError
  | some (.int f) =>
      if f = 0 then .error .zeroDivisionError
      else if Int.fmod global_step f = 0 ∧ global_step ≠ 0 then
        let training := t.is_training && decide (t.get_step_impl ≤ t.get_max_steps_impl)
        match List.lookup "Environment/Cumulative Reward" t.stats with
        | none => .error (.keyError "Environment/Cumulative Reward")
        | some rewards =>
            let logs :=
              if rewards.length > 0 then
                [LogEvent.summaryReward t.run_id t.brain_name
                  (min t.get_step_impl t.get_max_steps_impl) delta_train_start
                  rewards training]
              else
                [LogEvent.summaryNoEpisode t.run_id t.brain_name t.get_step_impl training]
            let r := summarize_stats t.stats
            .ok ({ t with stats := r.1 },
                 r.2 ++ [("Environment/Lesson", (lesson_num : ℚ))], logs)
      else .ok (t, [], [])

/-- `write_tensorboard_text` (lines 300-316): the whole body is wrapped in a
bare `try/except` that logs and continues.  `runtime` is the outcome of the
underlying summary-runtime calls (session, text op, run, add_summary); the
result is the list of log events, and the method itself never raises. -/
def Trainer.write_tensorboard_text (_t : Trainer) (_key : String)
    (_input_dict : List (String × PyVal)) (runtime : Except PyError Unit) :
    Except PyError (List LogEvent) :=
  match runtime with
  | .ok _ => .ok []
  | .error _ => .ok [LogEvent.tbTextFailed]

/-! ## Helper lemmas -/

theorem start_timer_of_some (m : TrainerMetrics) (x t : ℚ)
    (h : m.time_start_experience_collection = some x) :
    m.start_experience_collection_timer t = m := by
  simp [TrainerMetrics.start_experience_collection_timer, h]

theorem start_timer_marker_isSome (m : TrainerMetrics) (t : ℚ) :
    ((m.start_experience_collection_timer t).time_start_experience_collection).isSome := by
  cases h : m.time_start_experience_collection <;>
    simp [TrainerMetrics.start_experience_collection_timer, h]

theorem foldl_start_timer_of_isSome (m : TrainerMetrics) (ts : List ℚ)
    (h : (m.time_start_experience_collection).isSome) :
    List.foldl TrainerMetrics.start_experience_collection_timer m ts = m := by
  induction ts with
  | nil => rfl
  | cons a as ih =>
      obtain ⟨x, hx⟩ := Option.isSome_iff_exists.mp h
      rw [List.foldl_cons, start_timer_of_some m x a hx]
      exact ih

theorem summarize_stats_fst (s : List (String × List ℚ)) :
    (summarize_stats s).1 =
      s.map fun kv => if kv.2.length > 0 then (kv.1, ([] : List ℚ)) else kv := by
  induction s with
  | nil => rfl
  | cons a as ih =>
      obtain ⟨k, v⟩ := a
      by_cases h : v.length > 0 <;> simp [summarize_stats, h, ih]

theorem summarize_stats_snd (s : List (String × List ℚ)) :
    (summarize_stats s).2 =
      s.filterMap fun kv =>
        if kv.2.length > 0 then some (kv.1, np_mean kv.2) else none := by
  induction s with
  | nil => rfl
  | cons a as ih =>
      obtain ⟨k, v⟩ := a
      by_cases h : v.length > 0 <;> simp [summarize_stats, h, ih]

theorem find_missing_key_eq_none_iff (ps : List (String × PyVal)) (ks : List String) :
    find_missing_key ps ks = none ↔ ∀ k ∈ ks, (List.lookup k ps).isSome := by
  induction ks with
  | nil => simp [find_missing_key]
  | cons a as ih =>
      simp only [find_missing_key]
      by_cases h : (List.lookup a ps).isSome
      · rw [if_pos h]
        constructor
        · intro hn k hk
          rcases List.mem_cons.mp hk with h1 | h2
          · rw [h1]; exact h
          · exact ih.mp hn k h2
        · intro hall
          exact ih.mpr fun k hk => hall k (List.mem_cons_of_mem _ hk)
      · rw [if_neg h]
        constructor
        · intro hn
          simp at hn
        · intro hall
          exact absurd (hall a (List.mem_cons_self _ _)) h

theorem find_missing_key_some_spec (ps : List (String × PyVal)) (ks : List String)
    (k : String) (h : find_missing_key ps ks = some k) :
    k ∈ ks ∧ List.lookup k ps = none := by
  induction ks with
  | nil => simp [find_missing_key] at h
  | cons a as ih =>
      simp only [find_missing_key] at h
      by_cases hl : (List.lookup a ps).isSome
      · rw [if_pos hl] at h
        obtain ⟨hm, hn⟩ := ih h
        exact ⟨List.mem_cons_of_mem _ hm, hn⟩
      · rw [if_neg hl] at h
        injection h with h2
        subst h2
        exact ⟨List.mem_cons_self _ _, Option.not_isSome_iff_eq_none.mp hl⟩

/-! ## Concrete states used by witnesses and counterexamples -/

/-- A baseline metrics recorder, fresh from the constructor. -/
def tm0 : TrainerMetrics := TrainerMetrics.init "metrics.csv" "brainA" 0

/-- Recorder with an experience collection in progress, started at time 2. -/
def tmCollecting : TrainerMetrics :=
  { tm0 with time_start_experience_collection := some 2 }

/-- Recorder after `start_policy_update_timer(100, 1.5)` at time 1. -/
def tmUpdating : TrainerMetrics := tm0.start_policy_update_timer 100 (3 / 2) 1

/-- A baseline concrete trainer: fresh construction (`stats = {}`,
`param_keys = []`), as set up by `Trainer.__init__` (lines 115-126). -/
def trainer0 : Trainer :=
  { param_keys := []
    brain_name := "brainA"
    run_id := 7
    trainer_parameters := [("summary_freq", PyVal.int 10), ("batch_size", PyVal.int 32)]
    cls := "PPOTrainer"
    is_training := true
    stats := []
    trainer_metrics := tm0
    get_step_impl := 5
    get_max_steps_impl := 100 }

/-! ## Claims -/

/-- Claim C1 (the code contradicts it): the claim states that after N
start/end policy-update cycles the recorder holds N rows carrying the
supplied experience counts and mean returns.  In the source, however,
`end_policy_update` raises `TypeError` on every call — when no experience
collection has completed, the eagerly evaluated debug-log `.format` applies a
`.3f` format to `None` (lines 77-85), and otherwise the row generator calls
`isinstance` with a single argument (line 87) — so `self.rows.append(row)`
(line 91) is unreachable and the rows sequence never grows. -/
theorem end_policy_update_always_raises (m : TrainerMetrics) (now : ℚ) :
    (m.end_policy_update now).2 = Except.error PyError.typeError
    ∧ ((m.end_policy_update now).1).rows = m.rows := by
  cases h : m.time_policy_update_start <;>
    simp [TrainerMetrics.end_policy_update, h]

/-- Claim C3 (the code contradicts its formatting clause): flushing with zero
rows writes exactly the fixed header line, and flushing writes one line per
accumulated row in order; but the only code that accumulates rows,
`end_policy_update`, raises `TypeError` before its append, so after a
start/end policy-update cycle the flushed file still consists of exactly the
header line and no 3-decimal-formatted data line is ever produced. -/
theorem flush_after_failed_cycle_header_only :
    (tmUpdating.end_policy_update 2).2 = Except.error PyError.typeError
    ∧ ((tmUpdating.end_policy_update 2).1).write_training_metrics.2 =
        "Brain name,Time to update policy,Time since start of training,Time for last experience collection,Number of experiences used for training,Mean return\r\n"
    ∧ tm0.write_training_metrics.2 =
        "Brain name,Time to update policy,Time since start of training,Time for last experience collection,Number of experiences used for training,Mean return\r\n" :=
  ⟨rfl, rfl, rfl⟩

/-- Claim C4: in any sequence of consecutive `start_experience_collection_timer`
calls with no intervening end, only the first call sets the collection-start
marker, and every later call leaves the whole recorder state unchanged: the
fold of the remaining calls collapses to the first call alone. -/
theorem start_experience_collection_idempotent (m : TrainerMetrics) (t : ℚ)
    (ts : List ℚ) :
    List.foldl TrainerMetrics.start_experience_collection_timer m (t :: ts) =
      m.start_experience_collection_timer t
    ∧ (m.time_start_experience_collection = none →
        (m.start_experience_collection_timer t).time_start_experience_collection = some t) := by
  constructor
  · rw [List.foldl_cons]
    exact foldl_start_timer_of_isSome _ ts (start_timer_marker_isSome m t)
  · intro h
    simp [TrainerMetrics.start_experience_collection_timer, h]

/-- Witness for C4 at a fresh recorder and the call sequence at times 1, 2, 3. -/
theorem start_experience_collection_idempotent_witness :
    List.foldl TrainerMetrics.start_experience_collection_timer tm0 [1, 2, 3] =
      tm0.start_experience_collection_timer 1
    ∧ (tm0.start_experience_collection_timer 1).time_start_experience_collection = some 1 :=
  ⟨(start_experience_collection_idempotent tm0 1 [2, 3]).1,
   (start_experience_collection_idempotent tm0 1 [2, 3]).2 rfl⟩

/-- Claim C5: with a collection-start marker `t0` present,
`end_experience_collection_timer` stores `now - t0` as the last collection
duration and clears the marker; with no marker present it raises (`time() -
None` is a `TypeError`) and produces no duration. -/
theorem end_experience_collection_spec (m : TrainerMetrics) (now : ℚ) :
    (∀ t0, m.time_start_experience_collection = some t0 →
      m.end_experience_collection_timer now =
        ({ m with
            delta_last_experience_collection := some (now - t0)
            time_start_experience_collection := none }, Except.ok ()))
    ∧ (m.time_start_experience_collection = none →
      m.end_experience_collection_timer now = (m, Except.error PyError.typeError)) := by
  constructor
  · intro t0 h
    simp [TrainerMetrics.end_experience_collection_timer, h]
  · intro h
    simp [TrainerMetrics.end_experience_collection_timer, h]

/-- Witness for C5: ending at time 5 a collection started at time 2 stores
duration `5 - 2` and clears the marker; ending on a fresh recorder raises. -/
theorem end_experience_collection_spec_witness :
    tmCollecting.end_experience_collection_timer 5 =
      ({ tmCollecting with
          delta_last_experience_collection := some (5 - 2 : ℚ)
          time_start_experience_collection := none }, Except.ok ())
    ∧ tm0.end_experience_collection_timer 5 = (tm0, Except.error PyError.typeError) :=
  ⟨(end_experience_collection_spec tmCollecting 5).1 2 rfl,
   (end_experience_collection_spec tm0 5).2 rfl⟩

/-- Claim C8: `write_training_metrics` leaves the recorder state — in
particular the accumulated rows sequence — unchanged; writing never clears
the rows. -/
theorem write_training_metrics_preserves_rows (m : TrainerMetrics) :
    (m.write_training_metrics).1 = m ∧ (m.write_training_metrics).1.rows = m.rows :=
  ⟨rfl, rfl⟩

/-- Claim C6: if some declared required key is absent from the configuration
mapping, `check_param_keys` raises `UnityTrainerException` with a message
naming a missing key, the trainer class and the brain name; if every declared
key is present it returns the trainer state unchanged. -/
theorem check_param_keys_spec (t : Trainer) :
    ((∀ k ∈ t.param_keys, (List.lookup k t.trainer_parameters).isSome) →
      t.check_param_keys = Except.ok t)
    ∧ ((∃ k ∈ t.param_keys, List.lookup k t.trainer_parameters = none) →
      ∃ k, k ∈ t.param_keys ∧ List.lookup k t.trainer_parameters = none ∧
        t.check_param_keys =
          Except.error (PyError.unityTrainerException
            (check_param_keys_msg k t.cls t.brain_name))) := by
  constructor
  · intro h
    have hn : find_missing_key t.trainer_parameters t.param_keys = none :=
      (find_missing_key_eq_none_iff _ _).mpr h
    simp [Trainer.check_param_keys, hn]
  · rintro ⟨k0, hk0, hnone⟩
    cases hf : find_missing_key t.trainer_parameters t.param_keys with
    | none =>
        have hs := (find_missing_key_eq_none_iff _ _).mp hf k0 hk0
        rw [hnone] at hs
        simp at hs
    | some k =>
        obtain ⟨hm, hn⟩ := find_missing_key_some_spec _ _ _ hf
        exact ⟨k, hm, hn, by simp [Trainer.check_param_keys, hf]⟩

/-- Trainer declaring the required key `batch_size`, which its configuration
supplies. -/
def trGood : Trainer := { trainer0 with param_keys := ["batch_size"] }

/-- Trainer declaring the required key `X`, which its configuration lacks. -/
def trBad : Trainer := { trainer0 with param_keys := ["X"] }

/-- Witness for C6 at a satisfied and at a violated configuration. -/
theorem check_param_keys_spec_witness :
    trGood.check_param_keys = Except.ok trGood
    ∧ ∃ k, k ∈ trBad.param_keys ∧ List.lookup k trBad.trainer_parameters = none ∧
        trBad.check_param_keys =
          Except.error (PyError.unityTrainerException
            (check_param_keys_msg k trBad.cls trBad.brain_name)) :=
  ⟨(check_param_keys_spec trGood).1 (by decide),
   (check_param_keys_spec trBad).2 ⟨"X", by decide, by decide⟩⟩

/-- Claim C7: every unimplemented base-role operation raises
`UnityTrainerException` on a non-overriding instance (the `update_policy`
stub's message names `update_model`, as in the source) and never returns a
value. -/
theorem base_role_stubs_raise (t : Trainer) :
    t.parameters = Except.error (PyError.unityTrainerException
      "The parameters property was not implemented.")
    ∧ t.graph_scope = Except.error (PyError.unityTrainerException
      "The graph_scope property was not implemented.")
    ∧ t.get_max_steps = Except.error (PyError.unityTrainerException
      "The get_max_steps property was not implemented.")
    ∧ t.get_step = Except.error (PyError.unityTrainerException
      "The get_step property was not implemented.")
    ∧ t.get_last_reward = Except.error (PyError.unityTrainerException
      "The get_last_reward property was not implemented.")
    ∧ t.increment_step_and_update_last_reward = Except.error (PyError.unityTrainerException
      "The increment_step_and_update_last_reward method was not implemented.")
    ∧ t.add_experiences = Except.error (PyError.unityTrainerException
      "The add_experiences method was not implemented.")
    ∧ t.process_experiences = Except.error (PyError.unityTrainerException
      "The process_experiences method was not implemented.")
    ∧ t.end_episode = Except.error (PyError.unityTrainerException
      "The end_episode method was not implemented.")
    ∧ t.is_ready_update = Except.error (PyError.unityTrainerException
      "The is_ready_update method was not implemented.")
    ∧ t.update_policy = Except.error (PyError.unityTrainerException
      "The update_model method was not implemented.") :=
  ⟨rfl, rfl, rfl, rfl, rfl, rfl, rfl, rfl, rfl, rfl, rfl⟩

/-- Claim C9: `write_tensorboard_text` swallows every failure of the
underlying summary runtime — it always returns normally, logging the
diagnostic message on failure and nothing on success. -/
theorem write_tensorboard_text_never_raises (t : Trainer) (key : String)
    (input_dict : List (String × PyVal)) :
    (∀ runtime : Except PyError Unit, ∃ logs,
      t.write_tensorboard_text key input_dict runtime = Except.ok logs)
    ∧ (∀ e, t.write_tensorboard_text key input_dict (Except.error e) =
        Except.ok [LogEvent.tbTextFailed])
    ∧ t.write_tensorboard_text key input_dict (Except.ok ()) = Except.ok [] := by
  refine ⟨fun runtime => ?_, fun e => rfl, rfl⟩
  cases runtime with
  | ok u => exact ⟨[], rfl⟩
  | error e => exact ⟨[LogEvent.tbTextFailed], rfl⟩

/-- Claim C2 as amended: for a trainer whose configured `summary_freq` is a
positive integer, `write_summary` at `global_step = 0` is a no-op; and at a
nonzero multiple of the frequency, provided the statistics mapping contains
the `Environment/Cumulative Reward` key, every statistics key holding at
least one sample has the mean of its samples emitted as a summary value and
its sample sequence cleared to empty, while every key with an empty sample
sequence is left unmodified (and the lesson tag is appended). -/
theorem write_summary_triggered_spec (t : Trainer) (gs : Int) (d : ℚ) (l : Int)
    (f : Int)
    (hf : List.lookup "summary_freq" t.trainer_parameters = some (PyVal.int f))
    (hpos : 0 < f) :
    t.write_summary 0 d l = Except.ok (t, [], [])
    ∧ (Int.fmod gs f = 0 → gs ≠ 0 → ∀ rs,
        List.lookup "Environment/Cumulative Reward" t.stats = some rs →
        ∃ logs, t.write_summary gs d l =
          Except.ok
            ({ t with stats :=
                t.stats.map fun kv => if kv.2.length > 0 then (kv.1, []) else kv },
             (t.stats.filterMap fun kv =>
                if kv.2.length > 0 then some (kv.1, np_mean kv.2) else none)
               ++ [("Environment/Lesson", (l : ℚ))],
             logs)) := by
  have hfz : f ≠ 0 := hpos.ne'
  constructor
  · simp [Trainer.write_summary, hf, hfz]
  · intro hmod hgs rs hrs
    refine ⟨if rs.length > 0 then
        [LogEvent.summaryReward t.run_id t.brain_name
          (min t.get_step_impl t.get_max_steps_impl) d rs
          (t.is_training && decide (t.get_step_impl ≤ t.get_max_steps_impl))]
      else
        [LogEvent.summaryNoEpisode t.run_id t.brain_name t.get_step_impl
          (t.is_training && decide (t.get_step_impl ≤ t.get_max_steps_impl))], ?_⟩
    simp [Trainer.write_summary, hf, hfz, hmod, hgs, hrs,
      summarize_stats_fst, summarize_stats_snd]

/-- Trainer with frequency 1, reward samples `[1, 3]` and an empty
`Policy/Loss` sample list. -/
def trSummary : Trainer :=
  { trainer0 with
      trainer_parameters := [("summary_freq", PyVal.int 1)]
      stats := [("Environment/Cumulative Reward", [1, 3]), ("Policy/Loss", [])] }

/-- Witness for amended C2 at `trSummary`: step 0 is a no-op; step 1 emits
the reward mean (`np_mean [1, 3] = 2`) plus the lesson tag, clears the reward
samples, and leaves the empty `Policy/Loss` entry unmodified. -/
theorem write_summary_triggered_spec_witness :
    trSummary.write_summary 0 0 0 = Except.ok (trSummary, [], [])
    ∧ (∃ logs, trSummary.write_summary 1 0 0 =
        Except.ok
          ({ trSummary with stats :=
              trSummary.stats.map fun kv => if kv.2.length > 0 then (kv.1, []) else kv },
           (trSummary.stats.filterMap fun kv =>
              if kv.2.length > 0 then some (kv.1, np_mean kv.2) else none)
             ++ [("Environment/Lesson", ((0 : Int) : ℚ))],
           logs))
    ∧ np_mean [1, 3] = 2 :=
  ⟨(write_summary_triggered_spec trSummary 0 0 0 1 rfl (by decide)).1,
   (write_summary_triggered_spec trSummary 1 0 0 1 rfl (by decide)).2
     (by decide) (by decide) [1, 3] rfl,
   by norm_num [np_mean]⟩

/-- Trainer whose statistics mapping holds a nonempty `Policy/Loss` sample
list but no `Environment/Cumulative Reward` entry. -/
def trNoRewardKey : Trainer :=
  { trainer0 with
      trainer_parameters := [("summary_freq", PyVal.int 1)]
      stats := [("Policy/Loss", [2])] }

/-- Trainer whose configured `summary_freq` is 0. -/
def trFreqZero : Trainer :=
  { trainer0 with trainer_parameters := [("summary_freq", PyVal.int 0)] }

/-- Counterexample to C2 as stated: at `trNoRewardKey` the step is a nonzero
multiple of the frequency and `Policy/Loss` holds a sample, yet
`write_summary` raises `KeyError` — no mean is emitted and nothing is cleared
— and at `trFreqZero` the call at `global_step = 0` is not a no-op: Python's
`0 % 0` raises `ZeroDivisionError`. -/
theorem write_summary_claim_counterexample :
    ("Policy/Loss", [(2 : ℚ)]) ∈ trNoRewardKey.stats
    ∧ List.lookup "Environment/Cumulative Reward" trNoRewardKey.stats = none
    ∧ trNoRewardKey.write_summary 1 0 0 =
        Except.error (PyError.keyError "Environment/Cumulative Reward")
    ∧ List.lookup "summary_freq" trFreqZero.trainer_parameters = some (PyVal.int 0)
    ∧ trFreqZero.write_summary 0 0 0 = Except.error PyError.zeroDivisionError :=
  ⟨List.Mem.head _, rfl, rfl, rfl, rfl⟩

/-- Claim C10: when `write_summary` is triggered and the statistics mapping
has no `Environment/Cumulative Reward` entry at all (the state of a freshly
constructed trainer, whose `stats` starts empty), the call raises `KeyError`
instead of taking the no-episode-completed logging branch; that branch is
taken exactly when the key is present with an empty sample list. -/
theorem write_summary_missing_reward_key_raises (t : Trainer) (gs : Int) (d : ℚ)
    (l : Int) (f : Int)
    (hf : List.lookup "summary_freq" t.trainer_parameters = some (PyVal.int f))
    (hfz : f ≠ 0) (hmod : Int.fmod gs f = 0) (hgs : gs ≠ 0) :
    (List.lookup "Environment/Cumulative Reward" t.stats = none →
      t.write_summary gs d l =
        Except.error (PyError.keyError "Environment/Cumulative Reward"))
    ∧ (List.lookup "Environment/Cumulative Reward" t.stats = some [] →
      t.write_summary gs d l =
        Except.ok ({ t with stats := (summarize_stats t.stats).1 },
          (summarize_stats t.stats).2 ++ [("Environment/Lesson", (l : ℚ))],
          [LogEvent.summaryNoEpisode t.run_id t.brain_name t.get_step_impl
            (t.is_training && decide (t.get_step_impl ≤ t.get_max_steps_impl))])) := by
  constructor <;> intro h <;>
    simp [Trainer.write_summary, hf, hfz, hmod, hgs, h]

/-- Fresh trainer (empty statistics mapping) with frequency 1. -/
def trFresh : Trainer :=
  { trainer0 with trainer_parameters := [("summary_freq", PyVal.int 1)] }

/-- Trainer whose reward key is present with an empty sample list. -/
def trEmptyReward : Trainer :=
  { trFresh with stats := [("Environment/Cumulative Reward", [])] }

/-- Witness for C10: the fresh trainer raises `KeyError` at step 1; with the
key present but empty, the no-episode logging branch is taken. -/
theorem write_summary_missing_reward_key_raises_witness :
    trFresh.write_summary 1 0 0 =
      Except.error (PyError.keyError "Environment/Cumulative Reward")
    ∧ trEmptyReward.write_summary 1 0 0 =
        Except.ok ({ trEmptyReward with stats := (summarize_stats trEmptyReward.stats).1 },
          (summarize_stats trEmptyReward.stats).2 ++
            [("Environment/Lesson", ((0 : Int) : ℚ))],
          [LogEvent.summaryNoEpisode trEmptyReward.run_id trEmptyReward.brain_name
            trEmptyReward.get_step_impl
            (trEmptyReward.is_training &&
              decide (trEmptyReward.get_step_impl ≤ trEmptyReward.get_max_steps_impl))]) :=
  ⟨(write_summary_missing_reward_key_raises trFresh 1 0 0 1 rfl (by decide)
      (by decide) (by decide)).1 rfl,
   (write_summary_missing_reward_key_raises trEmptyReward 1 0 0 1 rfl (by decide)
      (by decide) (by decide)).2 rfl⟩
